import Mathlib

/-!
# Verification of the indicator-resolution and composite-regime core
of `monthly_check.py` (daily-invest-bot).

Shallow embedding: external HTTP sources are modelled by their returned
payloads (`Option` = request/JSON failure vs. success), Python `float(...)`
by a single-field decimal parser returning `Option ℚ`, and an uncaught
Python exception by `Except.error`.
-/

namespace Monthly

/-- Numeric value of a list of decimal digit characters (most significant first). -/
def digitsToNat (l : List Char) : ℕ :=
  l.foldl (fun a c => 10 * a + (c.toNat - 48)) 0

/-- String-level phase of Python `float(s)` restricted to single-field
decimal notation: optional sign, digits, optionally a point and more
digits, at least one digit overall.  Returns the sign, the integer-part
digits' value, the fractional digits' value and the number of
fractional digits; `none` where Python raises `ValueError`. -/
def parseParts (s : String) : Option (Bool × ℕ × ℕ × ℕ) :=
  let signed : Bool × List Char :=
    match s.data with
    | '-' :: r => (true, r)
    | '+' :: r => (false, r)
    | r => (false, r)
  let neg := signed.1
  let cs := signed.2
  let intPart := cs.takeWhile Char.isDigit
  let rest := cs.dropWhile Char.isDigit
  match rest with
  | [] => if intPart = [] then none else some (neg, digitsToNat intPart, 0, 0)
  | '.' :: frac =>
      if frac.all Char.isDigit && !(intPart = [] && frac = []) then
        some (neg, digitsToNat intPart, digitsToNat frac, frac.length)
      else none
  | _ => none

/-- Numeric interpretation of the parsed decimal parts as a rational. -/
def ratOfParts (p : Bool × ℕ × ℕ × ℕ) : ℚ :=
  let v : ℚ := (p.2.1 : ℚ) + (p.2.2.1 : ℚ) / (10 : ℚ) ^ p.2.2.2
  if p.1 then -v else v

/-- Python `float(s)` on a single decimal field: `none` where Python
raises `ValueError`. -/
def parseDecimal (s : String) : Option ℚ :=
  (parseParts s).map ratOfParts

/-- `float(s)` where the exception is NOT caught by any surrounding
`try`: failure aborts the computation (`Except.error`), exactly like an
uncaught `ValueError` aborts the Python run. -/
def parseOrThrow (s : String) : Except String ℚ :=
  match parseDecimal s with
  | some v => Except.ok v
  | none => Except.error ("could not convert string to float: " ++ s)

/-- `[o['value'] for o in obs if o['value'] != '.']` — drop the FRED
missing-data sentinel before any value is used. -/
def fredFilter (values : List String) : List String :=
  values.filter (fun v => v ≠ ".")

/-- `fred_get(series_id, limit)`: the argument is the raw observation
value strings of the API response (`none` when the request fails or the
JSON is malformed — caught by the function's `try`/`except`, which
returns `None`, and likewise when `FRED_API_KEY` is unset).  On success
the sentinel-filtered list is returned. -/
def fred_get (resp : Option (List String)) : Option (List String) :=
  resp.map fredFilter

/-! ## `get_cape()` — the valuation fallback chain -/

/-- Method 1 pattern loop of `get_cape`: each element is the text matched
by one regex (`none` = no match).  A match that parses and lies in the
open sanity interval (5, 100) is returned; a match whose parse fails
raises inside the surrounding `try`, abandoning the remaining patterns
(the whole method fails); an out-of-range value just moves on to the
next pattern. -/
def scanPatterns : List (Option String) → Option ℚ
  | [] => none
  | none :: rest => scanPatterns rest
  | some g :: rest =>
      match parseDecimal g with
      | none => none
      | some val => if 5 < val ∧ val < 100 then some val else scanPatterns rest

/-- Method 2 of `get_cape`: the FRED series request; the argument is the
latest observation value string (`none` = request/JSON failure or empty
observation list).  The sentinel is checked, the value parsed (a parse
failure is swallowed by the bare `except`), and — notably — returned
with NO sanity-range check. -/
def capeMethod2 : Option String → Option ℚ
  | none => none
  | some v => if v = "." then none else parseDecimal v

/-- Method 3 of `get_cape`: the stooq CSV export; the argument is the
fifth field of the last line (`none` = request failure or too few
lines/fields).  Parse failure raises inside `try` (method fails); an
out-of-range value is rejected by the (5, 100) check. -/
def capeMethod3 : Option String → Option ℚ
  | none => none
  | some f =>
      match parseDecimal f with
      | none => none
      | some val => if 5 < val ∧ val < 100 then some val else none

/-- `get_cape()`: the three methods tried in order, first success wins;
`m1` is `none` when the multpl.com request itself fails. -/
def get_cape (m1 : Option (List (Option String))) (m2 m3 : Option String) : Option ℚ :=
  match m1.bind scanPatterns with
  | some v => some v
  | none =>
      match capeMethod2 m2 with
      | some v => some v
      | none => capeMethod3 m3

/-! ## `fetch_all_indicators()` — resolved indicator records -/

/-- `results['fed']` record. -/
structure FedRec where
  value : ℚ
  prev : ℚ
  direction : String
  raw : List String
  deriving Repr, DecidableEq

/-- `results['yield_curve']` record. -/
structure YcRec where
  spread : ℚ
  dgs10 : ℚ
  dgs2 : ℚ
  inverted : Bool
  reverting : Bool
  deriving Repr, DecidableEq

/-- `results['sahm']` record. -/
structure SahmRec where
  value : ℚ
  status : String
  deriving Repr, DecidableEq

/-- `results['pmi']` record. -/
structure PmiRec where
  value : ℚ
  prev : ℚ
  trend : String
  status : String
  note : Option String
  deriving Repr, DecidableEq

/-- `results['cape']` record. -/
structure CapeRec where
  value : ℚ
  valuation : String
  deriving Repr, DecidableEq

/-- The `results` dict of `fetch_all_indicators`: `fed`, `yield_curve`
and `sahm` may be set to `None`; `pmi` and `cape` are always set to a
record by the code. -/
structure Results where
  fed : Option FedRec
  yield_curve : Option YcRec
  sahm : Option SahmRec
  pmi : PmiRec
  cape : CapeRec
  deriving Repr, DecidableEq

/-- `direction` for the Fed rate: `'持平'` (flat), overwritten by
`'升息中'` (hiking) when current > prev and `'降息中'` (cutting) when
current < prev. -/
def fedDirection (current prev : ℚ) : String :=
  if current > prev then "升息中" else if current < prev then "降息中" else "持平"

/-- Fed branch: `fed = fred_get('FEDFUNDS', 3)`, then requires a truthy
list with at least two entries, else `results['fed'] = None`.  The
`float(...)` conversions are not guarded by any `try`. -/
def fedBranch (fedResp : Option (List String)) : Except String (Option FedRec) :=
  match fred_get fedResp with
  | some l =>
      match l with
      | a :: b :: _ => do
          let current ← parseOrThrow a
          let prev ← parseOrThrow b
          Except.ok (some ⟨current, prev, fedDirection current prev, l⟩)
      | _ => Except.ok none
  | none => Except.ok none

/-- Lines 151–163: the flags computed from the current and previous
spread: `inverted = spread < 0`;
`reverting = was_inverted and is_now_positive`. -/
def ycFlags (spread prev_spread : ℚ) : Bool × Bool :=
  let was_inverted := decide (prev_spread < 0)
  let is_now_positive := decide (spread > 0)
  (decide (spread < 0), was_inverted && is_now_positive)

/-- Yield-curve branch: both legs must be truthy; the spread is
`dgs10[0] - dgs2[0]`; the previous spread uses index 1 of each leg when
both have more than one entry, else it defaults to the current spread.
All `float(...)` conversions are unguarded. -/
def ycBranch (d10Resp d2Resp : Option (List String)) : Except String (Option YcRec) :=
  match fred_get d10Resp, fred_get d2Resp with
  | some (a :: restA), some (b :: restB) => do
      let v10 ← parseOrThrow a
      let v2 ← parseOrThrow b
      let spread := v10 - v2
      let prev_spread ←
        match restA, restB with
        | a2 :: _, b2 :: _ => do
            let p10 ← parseOrThrow a2
            let p2 ← parseOrThrow b2
            pure (p10 - p2)
        | _, _ => pure spread
      let flags := ycFlags spread prev_spread
      Except.ok (some ⟨spread, v10, v2, flags.1, flags.2⟩)
  | _, _ => Except.ok none

/-- Sahm-rule branch: thresholds 0.5 (`'衰退確認'`, recession confirmed)
and 0.3 (`'警戒區'`, watch), else `'安全'` (safe). -/
def sahmBranch (sahmResp : Option (List String)) : Except String (Option SahmRec) :=
  match fred_get sahmResp with
  | some (a :: _) => do
      let val ← parseOrThrow a
      let status :=
        if val ≥ (0.5 : ℚ) then "衰退確認" else if val ≥ (0.3 : ℚ) then "警戒區" else "安全"
      Except.ok (some ⟨val, status⟩)
  | _ => Except.ok none

/-- The `for series in [...]` loop: `pmi` holds each attempt's
`fred_get` result in turn, breaking on a truthy list of length ≥ 2;
after the loop `pmi` is the last attempt's value if no break fired. -/
def pmiLoop : List (Option (List String)) → Option (List String)
  | [] => none
  | [a] => fred_get a
  | a :: rest =>
      match fred_get a with
      | some l => if l.length ≥ 2 then some l else pmiLoop rest
      | none => pmiLoop rest

/-- `if not pmi:` backup request (raw observation values, `none` =
request failure): its sentinel-filtered list replaces `pmi` only when
the loop left `pmi` falsy and the filtered list is non-empty. -/
def pmiResolve (attempts : List (Option (List String)))
    (backup : Option (List String)) : Option (List String) :=
  let pmi := pmiLoop attempts
  let falsy := match pmi with | none => true | some l => l.isEmpty
  if falsy then
    match backup with
    | some raw =>
        let obs := fredFilter raw
        if obs.isEmpty then pmi else some obs
    | none => pmi
  else pmi

/-- `trend = '上升' if current > prev else '下降'` — rising vs falling,
with no flat case. -/
def pmiTrend (current prev : ℚ) : String :=
  if current > prev then "上升" else "下降"

/-- `status = '擴張' if current > 50 else '收縮'` — expansion vs
contraction. -/
def pmiStatus (current : ℚ) : String :=
  if current > (50 : ℚ) then "擴張" else "收縮"

/-- The hardcoded last-known PMI record used when every source fails. -/
def pmiFallback : PmiRec :=
  ⟨50.9, 49.3, "上升", "擴張", some "（備用數值，可能非最新）"⟩

/-- PMI branch: loop over three FRED series, then the backup request,
then — when still no list of length ≥ 2 — the hardcoded record.  The
`float(...)` conversions on a successful list are unguarded. -/
def pmiBranch (attempts : List (Option (List String)))
    (backup : Option (List String)) : Except String PmiRec :=
  match pmiResolve attempts backup with
  | some (a :: b :: _) => do
      let current ← parseOrThrow a
      let prev ← parseOrThrow b
      Except.ok ⟨current, prev, pmiTrend current prev, pmiStatus current, none⟩
  | _ => Except.ok pmiFallback

/-- `if cape > 30 / elif cape > 20 / else` narrative valuation bands. -/
def capeValuation (cape : ℚ) : String :=
  if cape > 30 then "偏貴（謹慎加碼）" else if cape > 20 then "合理區間" else "便宜（好時機）"

/-- CAPE branch: `get_cape()` then `if not cape: cape = 37.0` (Python
falsiness: `None` and `0.0` both trigger the fallback), then the
narrative band.  This branch cannot fail. -/
def capeBranch (m1 : Option (List (Option String))) (m2 m3 : Option String) : CapeRec :=
  let c := get_cape m1 m2 m3
  let cape : ℚ :=
    match c with
    | none => 37.0
    | some v => if v = 0 then 37.0 else v
  ⟨cape, capeValuation cape⟩

/-- All external inputs a run of `fetch_all_indicators` consumes: raw
FRED observation values per request (`none` = request-level failure) and
the three `get_cape` source payloads. -/
structure SourceEnv where
  fed : Option (List String)
  dgs10 : Option (List String)
  dgs2 : Option (List String)
  sahm : Option (List String)
  pmi1 : Option (List String)
  pmi2 : Option (List String)
  pmi3 : Option (List String)
  pmiBackup : Option (List String)
  capeM1 : Option (List (Option String))
  capeM2 : Option String
  capeM3 : Option String
  deriving Repr

/-- `fetch_all_indicators()`: resolves the five indicators in order; an
uncaught `float(...)` failure anywhere aborts the whole run
(`Except.error`). -/
def fetch_all_indicators (env : SourceEnv) : Except String Results := do
  let fed ← fedBranch env.fed
  let yc ← ycBranch env.dgs10 env.dgs2
  let sahm ← sahmBranch env.sahm
  let pmi ← pmiBranch [env.pmi1, env.pmi2, env.pmi3] env.pmiBackup
  let cape := capeBranch env.capeM1 env.capeM2 env.capeM3
  Except.ok ⟨fed, yc, sahm, pmi, cape⟩

/-! ## `send_telegram` — traffic lights and the composite regime -/

/-- Fed light: `'🟢' if '降' in d else ('🔴' if '升' in d else '🟡')`. -/
def fedLight (f : FedRec) : String :=
  if f.direction.contains '降' then "🟢" else if f.direction.contains '升' then "🔴" else "🟡"

/-- Yield-curve light: reverting → red, inverted → yellow, else green. -/
def ycLight (yc : YcRec) : String :=
  if yc.reverting then "🔴" else if yc.inverted then "🟡" else "🟢"

/-- Sahm light: `≥ 0.5` → red, `≥ 0.3` → yellow, else green. -/
def sahmLight (s : SahmRec) : String :=
  if s.value ≥ (0.5 : ℚ) then "🔴" else if s.value ≥ (0.3 : ℚ) then "🟡" else "🟢"

/-- PMI light: `> 52` → green, `< 48` → red, else yellow. -/
def pmiLight (p : PmiRec) : String :=
  if p.value > 52 then "🟢" else if p.value < 48 then "🔴" else "🟡"

/-- CAPE light thresholds on the resolved value: `> 33` → red,
`> 22` → yellow, else green. -/
def capeColor (v : ℚ) : String :=
  if v > 33 then "🔴" else if v > 22 then "🟡" else "🟢"

/-- CAPE light: applied to `indicators['cape']['value']`. -/
def capeLight (c : CapeRec) : String :=
  capeColor c.value

/-- The `lights` list of `send_telegram`: one light appended per
available indicator, in the fixed order fed, yield-curve, sahm, pmi,
cape; unavailable (`None`) indicators are skipped. -/
def lights (r : Results) : List String :=
  (r.fed.toList.map fedLight) ++ (r.yield_curve.toList.map ycLight)
    ++ (r.sahm.toList.map sahmLight) ++ [pmiLight r.pmi] ++ [capeLight r.cape]

/-- Line 384: the composite regime from the red and green counts. -/
def overallRegime (ls : List String) : String :=
  let red_count := ls.count "🔴"
  let green_count := ls.count "🟢"
  if red_count = 0 ∧ green_count ≥ 3 then "🟢 綠燈"
  else if red_count ≥ 2 then "🔴 紅燈"
  else "🟡 黃燈"

/-! ## Shared concrete instances and evaluation lemmas -/

/-- Environment in which every external source fails. -/
def allFailEnv : SourceEnv :=
  ⟨none, none, none, none, none, none, none, none, none, none, none⟩

/-- The results of a run in which every external source fails. -/
def allFailResults : Results :=
  ⟨none, none, none, pmiFallback, ⟨37.0, "偏貴（謹慎加碼）"⟩⟩

lemma parseDecimal_45 : parseDecimal "4.5" = some (9 / 2) := by
  rw [parseDecimal, show parseParts "4.5" = some (false, 4, 5, 1) from by decide]
  simp [ratOfParts]
  norm_num

lemma parseDecimal_43 : parseDecimal "4.3" = some (43 / 10) := by
  rw [parseDecimal, show parseParts "4.3" = some (false, 4, 3, 1) from by decide]
  simp [ratOfParts]
  norm_num

lemma parseDecimal_40 : parseDecimal "4.0" = some 4 := by
  rw [parseDecimal, show parseParts "4.0" = some (false, 4, 0, 1) from by decide]
  simp [ratOfParts]

lemma parseDecimal_41 : parseDecimal "4.1" = some (41 / 10) := by
  rw [parseDecimal, show parseParts "4.1" = some (false, 4, 1, 1) from by decide]
  simp [ratOfParts]
  norm_num

lemma parseDecimal_32 : parseDecimal "3.2" = some (16 / 5) := by
  rw [parseDecimal, show parseParts "3.2" = some (false, 3, 2, 1) from by decide]
  simp [ratOfParts]
  norm_num

lemma parseDecimal_50 : parseDecimal "50" = some 50 := by
  rw [parseDecimal, show parseParts "50" = some (false, 50, 0, 0) from by decide]
  simp [ratOfParts]

lemma parseDecimal_NA : parseDecimal "N/A" = none := by
  rw [parseDecimal, show parseParts "N/A" = none from by decide]
  rfl

lemma capeValuation_37 : capeValuation 37.0 = "偏貴（謹慎加碼）" := by
  rw [capeValuation, if_pos (by norm_num)]

lemma fetch_allFail : fetch_all_indicators allFailEnv = Except.ok allFailResults := by
  simp [fetch_all_indicators, allFailEnv, fedBranch, ycBranch, sahmBranch, pmiBranch,
    pmiResolve, pmiLoop, fred_get, capeBranch, get_cape, capeMethod2, capeMethod3,
    scanPatterns, allFailResults, capeValuation_37, bind, Except.bind]

end Monthly

namespace Monthly

/-- Claim C1: the overall composite regime from the available lights is
green iff the red count is 0 and the green count is at least 3, else red
iff the red count is at least 2, else yellow; with the four listed
concrete evaluations, including yellow for the empty list. -/
theorem composite_regime_rule (ls : List String) :
    (overallRegime ls = "🟢 綠燈" ↔ (ls.count "🔴" = 0 ∧ ls.count "🟢" ≥ 3))
    ∧ (overallRegime ls = "🔴 紅燈" ↔
        (¬(ls.count "🔴" = 0 ∧ ls.count "🟢" ≥ 3) ∧ ls.count "🔴" ≥ 2))
    ∧ (overallRegime ls = "🟡 黃燈" ↔
        (¬(ls.count "🔴" = 0 ∧ ls.count "🟢" ≥ 3) ∧ ¬(ls.count "🔴" ≥ 2)))
    ∧ overallRegime ["🔴", "🔴", "🟢", "🟢", "🟢"] = "🔴 紅燈"
    ∧ overallRegime ["🟢", "🟢", "🟢", "🟡", "🟡"] = "🟢 綠燈"
    ∧ overallRegime ["🟡", "🟡", "🟡", "🟡", "🟡"] = "🟡 黃燈"
    ∧ overallRegime [] = "🟡 黃燈" := by
  refine ⟨?_, ?_, ?_, by decide, by decide, by decide, by decide⟩ <;>
  · simp only [overallRegime]
    split_ifs with h1 h2 <;> simp_all

/-- Claim C2: `reverting` is true iff the previous spread is strictly
negative and the current spread strictly positive; `inverted` is true
iff the current spread is strictly negative; with the three listed
sign-combination tests and a run through the full yield-curve branch. -/
theorem yield_curve_flag_rule (spread prev_spread : ℚ) :
    ((ycFlags spread prev_spread).2 = true ↔ (prev_spread < 0 ∧ spread > 0))
    ∧ ((ycFlags spread prev_spread).1 = true ↔ spread < 0)
    ∧ (ycFlags (0.2 : ℚ) (-0.1 : ℚ)).2 = true
    ∧ (ycFlags (0.2 : ℚ) (0.1 : ℚ)).2 = false
    ∧ (ycFlags (-0.05 : ℚ) (-0.1 : ℚ)).2 = false
    ∧ ycBranch (some ["4.5", "4.0"]) (some ["4.3", "4.1"]) =
        Except.ok (some ⟨1 / 5, 9 / 2, 43 / 10, false, true⟩) := by
  have f1 : fred_get (some ["4.5", "4.0"]) = some ["4.5", "4.0"] := by decide
  have f2 : fred_get (some ["4.3", "4.1"]) = some ["4.3", "4.1"] := by decide
  refine ⟨by simp [ycFlags], by simp [ycFlags], ?_, ?_, ?_, ?_⟩
  · simp [ycFlags]
    norm_num
  · simp [ycFlags]
    norm_num
  · simp [ycFlags]
    norm_num
  · simp [ycBranch, f1, f2, parseOrThrow, parseDecimal_45, parseDecimal_40,
      parseDecimal_43, parseDecimal_41, bind, Except.bind, pure, Except.pure, ycFlags]
    norm_num

/-- Claim C3: with every external source failing, PMI resolves to the
hardcoded record (50.9, previous 49.3, rising, expansion) and CAPE to
the hardcoded 37.0 with the expensive/caution label; neither indicator
is absent from the results. -/
theorem pmi_cape_static_fallback :
    pmiBranch [none, none, none] none = Except.ok pmiFallback
    ∧ pmiFallback = ⟨50.9, 49.3, "上升", "擴張", some "（備用數值，可能非最新）"⟩
    ∧ capeBranch none none none = ⟨37.0, "偏貴（謹慎加碼）"⟩
    ∧ fetch_all_indicators allFailEnv = Except.ok allFailResults
    ∧ allFailResults.pmi = pmiFallback
    ∧ allFailResults.cape = ⟨37.0, "偏貴（謹慎加碼）"⟩ := by
  refine ⟨rfl, rfl, ?_, fetch_allFail, rfl, rfl⟩
  simp [capeBranch, get_cape, capeMethod2, capeMethod3, scanPatterns, capeValuation_37]

end Monthly
namespace Monthly

/-- Claim C4 counterexample: the FRED CAPE source returns a parsed value
of 3.2 even though it lies outside (5, 100), instead of falling through
to the next candidate (which would have produced 50). -/
theorem cape_fred_source_skips_range_check :
    get_cape none (some "3.2") (some "50") = some (16 / 5)
    ∧ ¬(5 < (16 / 5 : ℚ) ∧ (16 / 5 : ℚ) < 100)
    ∧ get_cape none none (some "50") = some 50 := by
  refine ⟨?_, by norm_num, ?_⟩
  · simp [get_cape, capeMethod2, parseDecimal_32]
  · simp [get_cape, capeMethod2, capeMethod3, parseDecimal_50]
    norm_num

/-- Claim C4 amended: the two webpage-scrape CAPE sources (the multpl
pattern scan and the stooq CSV export) reject a parsed value outside the
open interval (5, 100) and fall through; in particular a scrape parsing
to such a value leaves `get_cape` to continue with the later sources. -/
theorem cape_webpage_range_check (g : String) (v : ℚ) (rest : List (Option String))
    (hp : parseDecimal g = some v) (hout : ¬(5 < v ∧ v < 100)) :
    scanPatterns (some g :: rest) = scanPatterns rest
    ∧ capeMethod3 (some g) = none
    ∧ ∀ m2 m3, get_cape (some [some g]) m2 m3 = get_cape none m2 m3 := by
  refine ⟨by simp [scanPatterns, hp, hout], by simp [capeMethod3, hp, hout], ?_⟩
  intro m2 m3
  simp [get_cape, scanPatterns, hp, hout]

/-- Witness for the amended claim C4 at the concrete scrape value 3.2
and FRED value 50. -/
theorem cape_webpage_range_check_witness :
    scanPatterns [some "3.2"] = scanPatterns []
    ∧ capeMethod3 (some "3.2") = none
    ∧ get_cape (some [some "3.2"]) (some "50") none = get_cape none (some "50") none := by
  have h := cape_webpage_range_check "3.2" (16 / 5) [] parseDecimal_32 (by norm_num)
  exact ⟨h.1, h.2.1, h.2.2 (some "50") none⟩

def badFedEnv : SourceEnv := { allFailEnv with fed := some ["N/A", "1.0"] }

/-- Claim C5 counterexample: a FRED observation value that is not a
decimal (and not the sentinel) aborts the whole run — the unguarded
conversion in the policy-rate branch is fatal. -/
theorem unparsable_fred_value_aborts_run :
    fetch_all_indicators badFedEnv =
      Except.error ("could not convert string to float: " ++ "N/A") := by
  have hf : fred_get (some ["N/A", "1.0"]) = some ["N/A", "1.0"] := by decide
  simp [fetch_all_indicators, badFedEnv, allFailEnv, fedBranch, hf,
    parseOrThrow, parseDecimal_NA, bind, Except.bind]

/-- Claim C5 amended: inside each CAPE source, a value failing decimal
parsing is treated as that source having failed and the chain advances;
but the decimal conversions applied to FRED series values in the
resolution core are unguarded, so a non-sentinel unparsable value there
aborts the run. -/
theorem parse_failure_per_source (s : String) (hs : parseDecimal s = none)
    (hdot : s ≠ ".") :
    capeMethod2 (some s) = none
    ∧ capeMethod3 (some s) = none
    ∧ (∀ rest, scanPatterns (some s :: rest) = none)
    ∧ (∀ m1 m3, get_cape m1 (some s) m3 = get_cape m1 none m3)
    ∧ fedBranch (some [s, s]) =
        Except.error ("could not convert string to float: " ++ s) := by
  refine ⟨by simp [capeMethod2, hs, hdot], by simp [capeMethod3, hs], ?_, ?_, ?_⟩
  · intro rest
    simp [scanPatterns, hs]
  · intro m1 m3
    cases h : m1.bind scanPatterns <;>
      simp [get_cape, h, capeMethod2, hs, hdot]
  · simp [fedBranch, fred_get, fredFilter, hdot, parseOrThrow, hs, bind, Except.bind]

/-- Witness for the amended claim C5 at the unparsable value `"N/A"`. -/
theorem parse_failure_per_source_witness :
    capeMethod2 (some "N/A") = none
    ∧ capeMethod3 (some "N/A") = none
    ∧ scanPatterns [some "N/A"] = none
    ∧ get_cape none (some "N/A") none = get_cape none none none
    ∧ fedBranch (some ["N/A", "N/A"]) =
        Except.error ("could not convert string to float: " ++ "N/A") := by
  have h := parse_failure_per_source "N/A" parseDecimal_NA (by decide)
  exact ⟨h.1, h.2.1, h.2.2.1 [], h.2.2.2.1 none none, h.2.2.2.2⟩

end Monthly
namespace Monthly

def oneObsFedEnv : SourceEnv := { allFailEnv with fed := some ["4.5"] }

/-- Claim C6 counterexample: a policy-rate source supplying exactly one
observation (a current value with no prior) makes the indicator
unavailable instead of completing with previous = current. -/
theorem fed_single_observation_unavailable :
    fedBranch (some ["4.5"]) = Except.ok none
    ∧ fetch_all_indicators oneObsFedEnv = Except.ok allFailResults
    ∧ allFailResults.fed = none := by
  have hf : fedBranch (some ["4.5"]) = Except.ok none := by
    have : fred_get (some ["4.5"]) = some ["4.5"] := by decide
    simp [fedBranch, this]
  refine ⟨hf, ?_, rfl⟩
  simp [fetch_all_indicators, oneObsFedEnv, allFailEnv, hf, ycBranch, sahmBranch,
    pmiBranch, pmiResolve, pmiLoop, fred_get, capeBranch, get_cape, capeMethod2,
    capeMethod3, scanPatterns, allFailResults, capeValuation_37, bind, Except.bind]

lemma ycFlags_fst (s p : ℚ) : (ycFlags s p).1 = decide (s < 0) := rfl

lemma ycFlags_self (s : ℚ) : (ycFlags s s).2 = false := by
  rcases le_or_lt s 0 with h | h
  · simp [ycFlags, not_lt.2 h]
  · simp [ycFlags, not_lt.2 h.le]

/-- Claim C6 amended: only the yield-curve branch substitutes
previous := current when its source lacks a second observation (forcing
`reverting` to false); the policy-rate branch then reports the indicator
unavailable, and the PMI branch falls through to its hardcoded record. -/
theorem previous_fallback_rule (a b : String) (v10 v2 : ℚ)
    (ha : parseDecimal a = some v10) (hb : parseDecimal b = some v2)
    (hna : a ≠ ".") (hnb : b ≠ ".") :
    ycBranch (some [a]) (some [b]) =
      Except.ok (some ⟨v10 - v2, v10, v2, decide (v10 - v2 < 0), false⟩)
    ∧ fedBranch (some [a]) = Except.ok none
    ∧ pmiBranch [some [a], some [a], some [a]] (some [a]) = Except.ok pmiFallback := by
  refine ⟨?_, ?_, ?_⟩
  · simp [ycBranch, fred_get, fredFilter, hna, hnb, parseOrThrow, ha, hb,
      bind, Except.bind, pure, Except.pure, ycFlags_self, ycFlags_fst]
  · simp [fedBranch, fred_get, fredFilter, hna]
  · simp [pmiBranch, pmiResolve, pmiLoop, fred_get, fredFilter, hna]

/-- Witness for the amended claim C6 at single-observation legs 4.5 and
4.3. -/
theorem previous_fallback_rule_witness :
    ycBranch (some ["4.5"]) (some ["4.3"]) =
      Except.ok (some ⟨9 / 2 - 43 / 10, 9 / 2, 43 / 10, decide ((9 / 2 : ℚ) - 43 / 10 < 0), false⟩)
    ∧ fedBranch (some ["4.5"]) = Except.ok none
    ∧ pmiBranch [some ["4.5"], some ["4.5"], some ["4.5"]] (some ["4.5"]) =
        Except.ok pmiFallback :=
  previous_fallback_rule "4.5" "4.3" (9 / 2) (43 / 10) parseDecimal_45 parseDecimal_43
    (by decide) (by decide)

/-- Claim C7 counterexample: at a resolved value of exactly 20 the code
labels the valuation cheap/opportunity, not fair-range, and at exactly
22 the light is green, not yellow. -/
theorem cape_band_boundary_counterexample :
    capeValuation 20 = "便宜（好時機）"
    ∧ capeValuation 20 ≠ "合理區間"
    ∧ capeColor 22 = "🟢"
    ∧ capeColor 22 ≠ "🟡" := by
  have h1 : capeValuation 20 = "便宜（好時機）" := by
    rw [capeValuation, if_neg (by norm_num), if_neg (by norm_num)]
  have h2 : capeColor 22 = "🟢" := by
    rw [capeColor, if_neg (by norm_num), if_neg (by norm_num)]
  exact ⟨h1, by simp [h1], h2, by simp [h2]⟩

/-- Claim C7 amended: the narrative bands are expensive strictly above
30, fair strictly above 20 up to 30, cheap at or below 20; the light
thresholds are red strictly above 33, yellow strictly above 22 up to 33,
green at or below 22; the two threshold sets remain distinct (at 32 the
narrative is expensive while the light is yellow; at 21 the narrative is
fair while the light is green). -/
theorem cape_band_rule (v : ℚ) :
    (capeValuation v = "偏貴（謹慎加碼）" ↔ v > 30)
    ∧ (capeValuation v = "合理區間" ↔ (20 < v ∧ v ≤ 30))
    ∧ (capeValuation v = "便宜（好時機）" ↔ v ≤ 20)
    ∧ (capeColor v = "🔴" ↔ v > 33)
    ∧ (capeColor v = "🟡" ↔ (22 < v ∧ v ≤ 33))
    ∧ (capeColor v = "🟢" ↔ v ≤ 22)
    ∧ (capeValuation 32 = "偏貴（謹慎加碼）" ∧ capeColor 32 = "🟡")
    ∧ (capeValuation 21 = "合理區間" ∧ capeColor 21 = "🟢") := by
  have hv : ∀ w : ℚ, capeValuation w =
      if w > 30 then "偏貴（謹慎加碼）" else if w > 20 then "合理區間" else "便宜（好時機）" :=
    fun w => rfl
  have hc : ∀ w : ℚ, capeColor w =
      if w > 33 then "🔴" else if w > 22 then "🟡" else "🟢" :=
    fun w => rfl
  constructor
  · rw [hv]; split_ifs with h1 h2 <;> simp_all
  constructor
  · rw [hv]; split_ifs with h1 h2 <;> simp_all
  constructor
  · rw [hv]; split_ifs with h1 h2 <;> simp_all
    linarith
  constructor
  · rw [hc]; split_ifs with h1 h2 <;> simp_all
  constructor
  · rw [hc]; split_ifs with h1 h2 <;> simp_all
  constructor
  · rw [hc]; split_ifs with h1 h2 <;> simp_all
    linarith
  constructor
  · exact ⟨by rw [hv]; rw [if_pos (by norm_num)],
      by rw [hc]; rw [if_neg (by norm_num), if_pos (by norm_num)]⟩
  · exact ⟨by rw [hv]; rw [if_neg (by norm_num), if_pos (by norm_num)],
      by rw [hc]; rw [if_neg (by norm_num), if_neg (by norm_num)]⟩

/-- Witness for the amended claim C7: the offset of the two threshold
sets at the concrete values 32 and 21. -/
theorem cape_band_rule_witness :
    (capeValuation 32 = "偏貴（謹慎加碼）" ∧ capeColor 32 = "🟡")
    ∧ (capeValuation 21 = "合理區間" ∧ capeColor 21 = "🟢") :=
  ⟨(cape_band_rule 0).2.2.2.2.2.2.1, (cape_band_rule 0).2.2.2.2.2.2.2⟩

end Monthly
namespace Monthly

/-- Claim C8: sentinel `'.'` entries are excluded before current and
previous are selected; the raw series [".", "4.5", "4.3"] yields
current = 4.5 and previous = 4.3. -/
theorem sentinel_filtering (values : List String) :
    "." ∉ fredFilter values
    ∧ fred_get (some [".", "4.5", "4.3"]) = some ["4.5", "4.3"]
    ∧ fedBranch (some [".", "4.5", "4.3"]) =
        Except.ok (some ⟨9 / 2, 43 / 10, "升息中", ["4.5", "4.3"]⟩) := by
  have hf : fred_get (some [".", "4.5", "4.3"]) = some ["4.5", "4.3"] := by decide
  refine ⟨?_, hf, ?_⟩
  · simp [fredFilter, List.mem_filter]
  · have hd : fedDirection (9 / 2) (43 / 10) = "升息中" := by
      rw [fedDirection, if_pos (by norm_num)]
    simp [fedBranch, hf, parseOrThrow, parseDecimal_45, parseDecimal_43,
      bind, Except.bind, hd]

/-- Claim C9: every run that completes resolution contributes the PMI and
CAPE lights, so the composite evaluation counts at least 2 and at most 5
colors. -/
theorem composite_vote_bounds (env : SourceEnv) (r : Results)
    (h : fetch_all_indicators env = Except.ok r) :
    2 ≤ (lights r).length ∧ (lights r).length ≤ 5 := by
  clear h
  rcases r with ⟨fed, yc, sahm, pmi, cape⟩
  cases fed <;> cases yc <;> cases sahm <;> simp [lights]

/-- Witness for claim C9 at the run in which every source fails. -/
theorem composite_vote_bounds_witness :
    2 ≤ (lights allFailResults).length ∧ (lights allFailResults).length ≤ 5 :=
  composite_vote_bounds allFailEnv allFailResults fetch_allFail

/-- Claim C10: the PMI trend label has no flat case — rising exactly when
current > previous, falling otherwise, including on equality, where the
policy-rate classifier instead assigns its distinct flat label. -/
theorem pmi_trend_no_flat (current prev : ℚ) :
    (pmiTrend current prev = "上升" ↔ current > prev)
    ∧ (pmiTrend current prev = "下降" ↔ ¬current > prev)
    ∧ pmiTrend current current = "下降"
    ∧ fedDirection current current = "持平"
    ∧ pmiTrend current current ≠ fedDirection current current := by
  have hflat : fedDirection current current = "持平" := by
    rw [fedDirection, if_neg (lt_irrefl current), if_neg (lt_irrefl current)]
  have hfall : pmiTrend current current = "下降" := by
    rw [pmiTrend, if_neg (lt_irrefl current)]
  refine ⟨?_, ?_, hfall, hflat, by simp [hfall, hflat]⟩
  · rw [pmiTrend]; split_ifs <;> simp_all
  · rw [pmiTrend]; split_ifs <;> simp_all

end Monthly
